import Mathlib

/-!
Shallow embedding of the realtime-cli relay, for checking the natural-language
specification against the code.

The definitions below are translated from the Python sources:
  * `src/state.py`                     — `ResponseState`
  * `src/cli.py`                       — `handle_server_events` (the upstream→client pump)
  * `src/relay_server.py`              — `create_ephemeral_token`, `handle_client`
  * `src/realtime_relay_modal_app.py`  — `RateLimiter.check_rate_limit`,
        `RealtimeRelay._process_queue` / `_handle_reconnect`,
        `handle_client.relay_local_to_upstream`, `websocket_endpoint`
  * `src/models/pricing.py`            — `get_price_for_region`, `calculate_usage_cost`

Timestamps (Python floats) are modelled as rationals; JSON dictionaries are
modelled as association lists or explicit structures carrying exactly the
fields the code reads.  Side effects on the audio player, the terminal
display and logging are not modelled: they never touch the response state or
the wire traffic the claims are about.
-/

namespace RealtimeCli

/-! ## `src/state.py` — response state -/

/-- `ResponseState` from `src/state.py`: IDLE, PROCESSING, RESPONDING, ERROR. -/
inductive ResponseState where
  | idle
  | processing
  | responding
  | errorState
  deriving DecidableEq, Repr

/-- The response-tracking part of `SessionState` (`src/state.py`): the
`response_state` and `current_response_id` fields, which are the only
session fields `handle_server_events` reads and writes for response
tracking. -/
structure CliState where
  response_state : ResponseState
  current_response_id : Option String
  deriving DecidableEq, Repr

/-! ## `src/cli.py` — `handle_server_events`, one loop iteration

A server event is a JSON object; the handler reads the fields below.
`Option` encodes an absent key: in the Python, reading an absent key raises
`KeyError`, which the per-event `except Exception` swallows, leaving the
state as it was at the point of the raise. -/

/-- The fields of an upstream event that `handle_server_events` reads.
`has_error_obj` stands for the presence of a dict under the `error` key
(read before any state change in the `error` branch);
`response_obj_id` stands for `event["response"]["id"]`. -/
structure ServerEvent where
  type : String
  has_error_obj : Bool := false
  response_obj_id : Option String := none
  response_id : Option String := none
  delta : Option String := none
  deriving Repr

/-- An event the CLI sends back over the websocket from inside
`handle_server_events` (only `response.cancel` events are sent there). -/
structure SentEvent where
  type : String
  response_id : Option String
  deriving DecidableEq, Repr

/-- Result of handling one upstream event in `handle_server_events`:
the updated response-tracking state, the events sent on the websocket,
the text deltas accumulated, the audio deltas played, and whether the
handler closed the connection (no branch of the Python handler does). -/
structure StepResult where
  state : CliState
  sent : List SentEvent
  textActed : List String
  audioActed : List String
  closed : Bool
  deriving Repr

/-- A step that neither changes state nor produces output (a branch that
only touches the display/audio player, or one interrupted by a caught
exception before any state write). -/
def noChange (s : CliState) : StepResult :=
  { state := s, sent := [], textActed := [], audioActed := [], closed := false }

/-- One iteration of the `async for` loop of `handle_server_events`
(`src/cli.py` lines 466–607), translated branch by branch from the
`elif` chain on `event.get("type")`. -/
def handle_server_events_step (s : CliState) (ev : ServerEvent) : StepResult :=
  if ev.type = "error" then
    -- `print(f"Error: {event['error'].get('message')}")` raises if the
    -- `error` key is absent, before the state write; else the state is
    -- set to IDLE (the current response id is left as it was).
    if ev.has_error_obj then
      { noChange s with state := { s with response_state := .idle } }
    else noChange s
  else if ev.type = "session.created" then
    noChange s
  else if ev.type = "response.created" then
    -- `STATE.current_response_id = event["response"]["id"]` then
    -- `STATE.response_state = ResponseState.RESPONDING`.
    match ev.response_obj_id with
    | some rid =>
        { noChange s with
          state := { response_state := .responding, current_response_id := some rid } }
    | none => noChange s
  else if ev.type = "response.text.delta" then
    if s.response_state = .responding then
      match ev.response_id with
      | some rid =>
          if s.current_response_id = some rid then
            match ev.delta with
            | some d => { noChange s with textActed := [d] }
            | none => noChange s
          else noChange s
      | none => noChange s
    else noChange s
  else if ev.type = "response.audio.delta" then
    if s.response_state = .responding then
      match ev.response_id with
      | some rid =>
          if s.current_response_id = some rid then
            match ev.delta with
            | some d => { noChange s with audioActed := [d] }
            | none => noChange s
          else noChange s
      | none => noChange s
    else noChange s
  else if ev.type = "response.done" then
    if s.response_state = .responding then
      { noChange s with
        state := { response_state := .idle, current_response_id := none } }
    else noChange s
  else if ev.type = "input_audio_buffer.speech_started" then
    -- The Python first assigns `STATE.response_state = ResponseState.PROCESSING`
    -- and only then tests `STATE.current_response_id and
    -- STATE.response_state == ResponseState.RESPONDING` before sending the
    -- cancel event; the test therefore reads the state just written.
    let s1 : CliState := { s with response_state := .processing }
    if s1.current_response_id.isSome ∧ s1.response_state = .responding then
      { noChange s with
        state := { response_state := .idle, current_response_id := none },
        sent := [{ type := "response.cancel", response_id := s1.current_response_id }] }
    else
      { noChange s with state := s1 }
  else if ev.type = "input_audio_buffer.speech_stopped" then
    noChange s
  else if ev.type = "conversation.item.input_audio_transcription.completed" then
    noChange s
  else
    noChange s

/-! ## `src/relay_server.py` — `create_ephemeral_token` (whitelist filter)

The session config is a JSON dict, modelled as an association list from key
strings to opaque values; `List.lookup` is dict access (dict keys are
distinct, so first-match lookup agrees with dict lookup). -/

/-- The whitelist of session-config keys, in the order the dict
comprehension of `create_ephemeral_token` iterates them
(`src/relay_server.py` lines 70–78; identical list in
`src/realtime_relay_modal_app.py` lines 430–438). -/
def sessionConfigWhitelist : List String :=
  ["model", "modalities", "instructions", "voice",
   "input_audio_format", "output_audio_format",
   "input_audio_transcription", "turn_detection",
   "tools", "tool_choice", "temperature",
   "max_response_output_tokens"]

/-- The payload built by `create_ephemeral_token`:
`{k: session_config[k] for k in [...whitelist...] if k in session_config}` —
iterate the whitelist, keep each key present in the config with its
unchanged value. -/
def create_ephemeral_token_payload {V : Type} (session_config : List (String × V)) :
    List (String × V) :=
  sessionConfigWhitelist.filterMap fun k =>
    (session_config.lookup k).map fun v => (k, v)

/-! ## `src/relay_server.py` — `handle_client`, init phase (lines 163–206)

The init phase: await the first client event with a 5 s timeout; on timeout
`return` (the `finally` closes the client socket, nothing is sent); if the
first event's type is not `init_session`, send an error event with code
`invalid_event` and `return`; otherwise mint an ephemeral token (on mint
failure send `token_creation_failed` and `return`) and connect upstream. -/

/-- An error event sent to the client during the init phase, identified by
its `error.code` string. -/
structure InitErrorEvent where
  code : String
  deriving DecidableEq, Repr

/-- A client message as far as the init phase reads it: its `type`. -/
structure ClientMsg where
  type : String
  deriving DecidableEq, Repr

/-- Observable outcome of the init phase of `relay_server.handle_client`:
what was sent to the client, whether the handler returned (the `finally`
block then closes the client socket), whether `create_ephemeral_token` was
called, and whether an upstream connection was opened. -/
structure InitOutcome where
  sent : List InitErrorEvent
  connectionClosed : Bool
  mintAttempted : Bool
  upstreamOpened : Bool
  deriving DecidableEq, Repr

/-- The init phase of `handle_client` in `src/relay_server.py`:
`firstMsg = none` is the 5 s timeout (no event arrived); `mintOk` tells
whether the `create_ephemeral_token` call succeeds. -/
def relay_server_handle_client_init (firstMsg : Option ClientMsg) (mintOk : Bool) :
    InitOutcome :=
  match firstMsg with
  | none =>
      -- `except asyncio.TimeoutError: return` — nothing sent, socket closed.
      { sent := [], connectionClosed := true, mintAttempted := false, upstreamOpened := false }
  | some m =>
      if m.type ≠ "init_session" then
        -- error event with `"code": "invalid_event"`, then `return`.
        { sent := [{ code := "invalid_event" }], connectionClosed := true,
          mintAttempted := false, upstreamOpened := false }
      else if mintOk then
        { sent := [], connectionClosed := false, mintAttempted := true, upstreamOpened := true }
      else
        { sent := [{ code := "token_creation_failed" }], connectionClosed := true,
          mintAttempted := true, upstreamOpened := false }

/-! ## `src/realtime_relay_modal_app.py` — `websocket_endpoint` (lines 550–608)

The endpoint loop has no init timeout: it waits indefinitely for each
message.  An `init_session` message mints a token and starts the relay;
any other message is answered with an echo `{"type": "message", ...}` and
the loop continues. -/

/-- What one iteration of the `websocket_endpoint` loop replies with. -/
inductive ModalReply where
  | relayStarted
  | initFailed (code : String)
  | echoMessage
  deriving DecidableEq, Repr

/-- Outcome of one iteration of the `while True` loop of
`websocket_endpoint` on a received message. -/
structure ModalStepOutcome where
  reply : ModalReply
  connectionClosed : Bool
  mintAttempted : Bool
  upstreamOpened : Bool
  deriving DecidableEq, Repr

/-- One iteration of the `websocket_endpoint` message loop
(`src/realtime_relay_modal_app.py` lines 565–598): dispatch on
`msg.get("type") == "init_session"`; the non-init branch sends an echo
message and keeps looping; no branch closes the connection. -/
def websocket_endpoint_step (msg : ClientMsg) (mintOk : Bool) : ModalStepOutcome :=
  if msg.type = "init_session" then
    if mintOk then
      { reply := .relayStarted, connectionClosed := false,
        mintAttempted := true, upstreamOpened := true }
    else
      { reply := .initFailed "relay_init_failed", connectionClosed := false,
        mintAttempted := true, upstreamOpened := false }
  else
    { reply := .echoMessage, connectionClosed := false,
      mintAttempted := false, upstreamOpened := false }

/-! ## `src/realtime_relay_modal_app.py` — `RateLimiter` (lines 96–129) -/

/-- `RATE_LIMIT = 100  # requests per minute`. -/
def RATE_LIMIT : Nat := 100

/-- `RATE_WINDOW = 60  # seconds`. -/
def RATE_WINDOW : ℚ := 60

/-- The `RateLimit` dataclass: request count and window start timestamp. -/
structure RateLimit where
  count : Nat
  window_start : ℚ
  deriving DecidableEq, Repr

/-- The `RateLimiter.clients` dict, as a map from client id to its record. -/
def RateClients : Type := String → Option RateLimit

/-- Pointwise update of the clients map (dict assignment). -/
def RateClients.set (m : RateClients) (k : String) (v : RateLimit) : RateClients :=
  fun k' => if k' = k then some v else m k'

/-- `RateLimiter.check_rate_limit` (`src/realtime_relay_modal_app.py` lines
111–127), with `datetime.now().timestamp()` passed in as `now`.  Returns
the boolean result together with the clients map after the call. -/
def check_rate_limit (clients : RateClients) (client_id : String) (now : ℚ) :
    Bool × RateClients :=
  match clients client_id with
  | none => (true, clients.set client_id { count := 1, window_start := now })
  | some rate_data =>
      if now - rate_data.window_start > RATE_WINDOW then
        (true, clients.set client_id { count := 1, window_start := now })
      else if rate_data.count ≥ RATE_LIMIT then
        (false, clients)
      else
        (true, clients.set client_id
          { count := rate_data.count + 1, window_start := rate_data.window_start })

/-- Run a sequence of `check_rate_limit` calls for one client at the given
timestamps, collecting the results in order. -/
def check_rate_limit_run (clients : RateClients) (client_id : String) :
    List ℚ → List Bool × RateClients
  | [] => ([], clients)
  | now :: rest =>
      let (ok, clients') := check_rate_limit clients client_id now
      let (oks, clients'') := check_rate_limit_run clients' client_id rest
      (ok :: oks, clients'')

/-! ## `src/realtime_relay_modal_app.py` — `handle_client.relay_local_to_upstream`
(lines 473–479)

Each received client event is parsed, stamped with an `event_id` when it
lacks one (`f"evt_{uuid.uuid4().hex[:6]}"`), and sent upstream unchanged
otherwise.  The `uuid.uuid4().hex` draws are modelled by an oracle giving
the hex string of the i-th draw; a run stamps message i with draw i. -/

/-- A client event as the pump reads it: an optional `event_id` plus an
opaque payload standing for the rest of the JSON object. -/
structure ClientEvent where
  event_id : Option String := none
  payload : String := ""
  deriving DecidableEq, Repr

/-- `if "event_id" not in data: data["event_id"] = f"evt_{uuid.uuid4().hex[:6]}"`,
with `hexDraw` the value of `uuid.uuid4().hex` for this message. -/
def stampEvent (data : ClientEvent) (hexDraw : String) : ClientEvent :=
  match data.event_id with
  | none => { data with event_id := some ("evt_" ++ (hexDraw.take 6)) }
  | some _ => data

/-- The `relay_local_to_upstream` loop: every received message is stamped
(when needed) and forwarded upstream; message i uses uuid draw i.  Returns
the forwarded events in order — the loop forwards every message, with no
rate-limit check and no synthesized `rate_limited` error. -/
def relay_local_to_upstream_run (uuidHex : Nat → String) :
    Nat → List ClientEvent → List ClientEvent
  | _, [] => []
  | i, m :: rest => stampEvent m (uuidHex i) :: relay_local_to_upstream_run uuidHex (i + 1) rest

/-! ## `src/realtime_relay_modal_app.py` — `RealtimeRelay` send queue
(lines 394–416)

`_process_queue` loops: pop a message from `message_queue`; if the relay is
healthy (and has a socket) try to send it — on failure put it back with
`message_queue.put(message)`, which appends at the *tail* of the FIFO
queue, and mark unhealthy (then `_handle_reconnect` runs); if the relay is
not healthy when the message is popped, the message is simply discarded
(the `if` has no `else`).  `_handle_reconnect`/`connect_upstream` set
`healthy = True` again on success. -/

/-- The queue-relevant state of a `RealtimeRelay`: the FIFO
`message_queue`, the `healthy` flag, and — for observation — the messages
delivered upstream and the messages discarded, each in order. -/
structure QueueState where
  queue : List String
  healthy : Bool
  delivered : List String
  dropped : List String
  deriving DecidableEq, Repr

/-- One iteration of the `_process_queue` loop (`message = await get()` and
the body that follows); `sendFails` tells whether `upstream_ws.send`
raises for this message.  An empty queue blocks, i.e. nothing happens. -/
def process_queue_step (s : QueueState) (sendFails : Bool) : QueueState :=
  match s.queue with
  | [] => s
  | m :: rest =>
      if s.healthy then
        if sendFails then
          { s with queue := rest ++ [m], healthy := false }
        else
          { s with queue := rest, delivered := s.delivered ++ [m] }
      else
        { s with queue := rest, dropped := s.dropped ++ [m] }

/-- A successful `_handle_reconnect` → `connect_upstream`: sets
`healthy = True` (the queue contents are untouched). -/
def reconnect_success (s : QueueState) : QueueState :=
  { s with healthy := true }

/-- A `_health_check` ping timeout: sets `healthy = False`. -/
def heartbeat_timeout (s : QueueState) : QueueState :=
  { s with healthy := false }

/-- `RealtimeRelay.send`-side enqueue: putting an event on the FIFO
`message_queue` appends it at the tail and never fails. -/
def enqueue_event (s : QueueState) (m : String) : QueueState :=
  { s with queue := s.queue ++ [m] }

/-! ## `src/models/pricing.py` — pricing -/

/-- The `TokenPricing` dataclass: per-1M-token prices; the audio prices are
`Optional`. -/
structure TokenPricing where
  input_price : ℚ
  output_price : ℚ
  cached_input_price : ℚ
  audio_input_price : Option ℚ := none
  audio_output_price : Option ℚ := none
  deriving DecidableEq, Repr

/-- The `ModelType` enum. -/
inductive ModelType where
  | gpt4o
  | gpt4oMini
  | gpt4oRealtime
  | gpt4oMiniRealtime
  deriving DecidableEq, Repr

/-- `MODEL_PRICING`: only the two realtime models have entries (indexing
with the other two raises `KeyError`). -/
def MODEL_PRICING : ModelType → Option TokenPricing
  | .gpt4oRealtime =>
      some { input_price := 5, output_price := 20, cached_input_price := 5/2,
             audio_input_price := some 40, audio_output_price := some 80 }
  | .gpt4oMiniRealtime =>
      some { input_price := 3/5, output_price := 12/5, cached_input_price := 3/10,
             audio_input_price := some 10, audio_output_price := some 20 }
  | _ => none

/-- `PricingTier` enum values: STANDARD 1.0, DISCOUNTED 0.9, PREMIUM 1.2. -/
inductive PricingTier where
  | standard
  | discounted
  | premium
  deriving DecidableEq, Repr

/-- `PricingTier.value`. -/
def PricingTier.value : PricingTier → ℚ
  | .standard => 1
  | .discounted => 9/10
  | .premium => 12/10

/-- `REGION_MULTIPLIERS`, including the `"DEFAULT"` entry; `regionMultiplier`
below is `REGION_MULTIPLIERS.get(region_code, REGION_MULTIPLIERS["DEFAULT"])`. -/
def regionMultiplier (region_code : String) : ℚ :=
  if region_code = "US" then 1
  else if region_code = "EU" then 12/10
  else if region_code = "UK" then 23/20
  else if region_code = "IN" then 4/5
  else if region_code = "BR" then 17/20
  else if region_code = "DEFAULT" then 1
  else 1

/-- `get_price_for_region` (`src/models/pricing.py` lines 56–59). -/
def get_price_for_region (base_price : ℚ) (region_code : String) : ℚ :=
  base_price * regionMultiplier region_code

/-- `round(total, 6)`: rounding to 6 decimal places.  Both the code and the
spec round with the same operation, so one fixed rounding function models
both. -/
def roundTo6 (q : ℚ) : ℚ :=
  (round (q * 1000000) : ℤ) / 1000000

/-- The audio-cost term of `calculate_usage_cost`:
`if pricing.audio_input_price and audio_input_tokens > 0: ... else 0`,
mirroring Python truthiness — the guard is false when the price is `None`,
when it is `0`, and when the token count is `0`. -/
def audio_cost_term (price : Option ℚ) (tokens : ℕ) (region_code : String) : ℚ :=
  match price with
  | some p =>
      if p ≠ 0 ∧ tokens > 0 then
        ((tokens : ℚ) / 1000000) * get_price_for_region p region_code
      else 0
  | none => 0

/-- `calculate_usage_cost` (`src/models/pricing.py` lines 61–90), after the
`MODEL_PRICING[model]` lookup: `pricing` is the looked-up price vector. -/
def calculate_usage_cost (pricing : TokenPricing)
    (input_tokens output_tokens cached_tokens : ℕ)
    (audio_input_tokens audio_output_tokens : ℕ)
    (region_code : String) (pricing_tier : PricingTier) : ℚ :=
  let input_cost := ((input_tokens : ℚ) / 1000000) * get_price_for_region pricing.input_price region_code
  let output_cost := ((output_tokens : ℚ) / 1000000) * get_price_for_region pricing.output_price region_code
  let cached_cost := ((cached_tokens : ℚ) / 1000000) * get_price_for_region pricing.cached_input_price region_code
  let audio_input_cost := audio_cost_term pricing.audio_input_price audio_input_tokens region_code
  let audio_output_cost := audio_cost_term pricing.audio_output_price audio_output_tokens region_code
  roundTo6 ((input_cost + output_cost + cached_cost + audio_input_cost + audio_output_cost)
    * pricing_tier.value)

/-- The stored per-principal usage counters (§`UsageCounter`); used to state
that computing a cost from a snapshot leaves the counters unchanged. -/
structure UsageCounters where
  input_tokens : ℕ
  output_tokens : ℕ
  cached_tokens : ℕ
  audio_input_tokens : ℕ
  audio_output_tokens : ℕ
  deriving DecidableEq, Repr

/-- A call site computing the cost of a usage snapshot: the counter values
are passed by value (Python ints), so the call returns the cost together
with the counters, which it cannot mutate. -/
def calculate_usage_cost_of_counters (u : UsageCounters) (pricing : TokenPricing)
    (region_code : String) (pricing_tier : PricingTier) : ℚ × UsageCounters :=
  (calculate_usage_cost pricing u.input_tokens u.output_tokens u.cached_tokens
    u.audio_input_tokens u.audio_output_tokens region_code pricing_tier, u)

/-! ## Theorems -/

/-- Helper: `handle_server_events` never sends anything on the websocket
except from the (dead) cancellation branch, and never closes the
connection: every branch has `closed = false`. -/
theorem handle_server_events_step_never_closes (s : CliState) (ev : ServerEvent) :
    (handle_server_events_step s ev).closed = false := by
  unfold handle_server_events_step noChange
  dsimp only
  repeat' split
  all_goals rfl

/-- C2: "Whenever an input_audio_buffer.speech_started event arrives from
upstream while the connection's response state is Responding, the relay
synthesizes and sends upstream a response.cancel event carrying the current
response id, and then transitions the response state to Processing."
The code does transition to Processing, but sends no `response.cancel` at
all: for every state — in particular Responding with current response id
`resp_2` — the handler first overwrites the state with Processing and only
then tests for Responding, so the cancellation branch can never fire. -/
theorem speech_started_sends_no_cancel :
    (∀ s : CliState,
      handle_server_events_step s { type := "input_audio_buffer.speech_started" }
        = { state := { s with response_state := .processing },
            sent := [], textActed := [], audioActed := [], closed := false })
    ∧ handle_server_events_step
        { response_state := .responding, current_response_id := some "resp_2" }
        { type := "input_audio_buffer.speech_started" }
      = { state := { response_state := .processing, current_response_id := some "resp_2" },
          sent := [], textActed := [], audioActed := [], closed := false } := by
  constructor
  · intro s
    unfold handle_server_events_step noChange
    simp
  · rfl

/-- C3 counterexample: the claim "the per-connection ResponseState leaves
Responding only by handling a response.done event, by a response.cancel, or
by a fatal error" fails at concrete inputs: (1) from Responding, an
`input_audio_buffer.speech_started` event moves the state to Processing
with nothing sent (no response.cancel) and the connection open; (2) from
Responding, an ordinary `error` event moves the state to Idle while the
handler keeps the connection open (the error is not fatal — the CLI resumes
listening). -/
theorem responding_exit_counterexample :
    handle_server_events_step
        { response_state := .responding, current_response_id := some "resp_7" }
        { type := "input_audio_buffer.speech_started" }
      = { state := { response_state := .processing, current_response_id := some "resp_7" },
          sent := [], textActed := [], audioActed := [], closed := false }
    ∧ handle_server_events_step
        { response_state := .responding, current_response_id := some "resp_8" }
        { type := "error", has_error_obj := true }
      = { state := { response_state := .idle, current_response_id := some "resp_8" },
          sent := [], textActed := [], audioActed := [], closed := false } := by
  exact ⟨rfl, rfl⟩

/-- C3 (amended): in `handle_server_events`, the response state leaves
Responding only by handling a `response.done` event, an `error` event
(which sets it to Idle without closing the connection), or an
`input_audio_buffer.speech_started` event (which sets it to Processing
without sending a response.cancel); no other incoming event type causes an
exit from Responding. -/
theorem responding_exit_only_by_error_done_or_speech_started
    (s : CliState) (ev : ServerEvent)
    (hresp : s.response_state = .responding)
    (hexit : (handle_server_events_step s ev).state.response_state ≠ .responding) :
    ev.type = "error" ∨ ev.type = "response.done"
      ∨ ev.type = "input_audio_buffer.speech_started" := by
  by_cases h1 : ev.type = "error"
  · exact Or.inl h1
  by_cases h2 : ev.type = "response.done"
  · exact Or.inr (Or.inl h2)
  by_cases h3 : ev.type = "input_audio_buffer.speech_started"
  · exact Or.inr (Or.inr h3)
  exfalso
  apply hexit
  unfold handle_server_events_step noChange
  simp only [h1, h2, h3, if_false]
  repeat' split
  all_goals simp_all

/-- C3 witness: the amended theorem applied at a concrete input — from
Responding, an `error` event exits Responding, and the event's type is one
of the three permitted exit types. -/
theorem responding_exit_only_by_error_done_or_speech_started_witness :
    ((⟨.responding, some "r1"⟩ : CliState).response_state = .responding
      ∧ (handle_server_events_step ⟨.responding, some "r1"⟩
          { type := "error", has_error_obj := true }).state.response_state ≠ .responding)
    ∧ (({ type := "error", has_error_obj := true } : ServerEvent).type = "error"
        ∨ ({ type := "error", has_error_obj := true } : ServerEvent).type = "response.done"
        ∨ ({ type := "error", has_error_obj := true } : ServerEvent).type
            = "input_audio_buffer.speech_started") :=
  ⟨⟨rfl, by decide⟩,
    responding_exit_only_by_error_done_or_speech_started
      ⟨.responding, some "r1"⟩ { type := "error", has_error_obj := true }
      rfl (by decide)⟩

/-- C9: "A response.text.delta or response.audio.delta event is acted on
(text accumulated or audio played) only when the connection's response
state is Responding AND the event's response_id equals the current response
id; a delta whose response_id matches the current response id is still
ignored, with no state change and no client-visible effect, whenever the
response state is not Responding."  Acting is recorded in
`textActed`/`audioActed`; a delta step never changes the response-tracking
state, never sends, and never closes; when the state is not Responding the
step is a complete no-op. -/
theorem delta_acted_iff_responding_and_matching
    (s : CliState) (ev : ServerEvent)
    (hty : ev.type = "response.text.delta" ∨ ev.type = "response.audio.delta") :
    (((handle_server_events_step s ev).textActed ≠ []
        ∨ (handle_server_events_step s ev).audioActed ≠ []) →
      s.response_state = .responding
        ∧ ev.response_id.isSome
        ∧ ev.response_id = s.current_response_id)
    ∧ ((handle_server_events_step s ev).state = s
        ∧ (handle_server_events_step s ev).sent = []
        ∧ (handle_server_events_step s ev).closed = false)
    ∧ (s.response_state ≠ .responding → handle_server_events_step s ev = noChange s) := by
  have hne : ev.type = "response.text.delta" → ev.type ≠ "error" ∧ ev.type ≠ "session.created"
      ∧ ev.type ≠ "response.created" := by
    intro h; rw [h]; refine ⟨by decide, by decide, by decide⟩
  rcases hty with h | h
  · unfold handle_server_events_step noChange
    simp only [h]
    norm_num
    constructor
    · intro hacted
      by_cases hrs : s.response_state = ResponseState.responding
      · simp only [hrs, if_true] at hacted
        rcases hrid : ev.response_id with _ | rid
        · simp [hrid] at hacted
        · simp only [hrid] at hacted
          by_cases hcur : s.current_response_id = some rid
          · simp only [hcur, if_pos rfl] at hacted
            exact ⟨hrs, by simp [hrid], by simp [hrid, hcur]⟩
          · simp [hcur] at hacted
      · simp [hrs] at hacted
    · constructor
      · repeat' split
        all_goals simp_all
      · intro hnr
        simp [hnr]
  · unfold handle_server_events_step noChange
    have hne' : ev.type ≠ "response.text.delta" := by rw [h]; decide
    simp only [h, hne']
    norm_num
    constructor
    · intro hacted
      by_cases hrs : s.response_state = ResponseState.responding
      · simp only [hrs, if_true] at hacted
        rcases hrid : ev.response_id with _ | rid
        · simp [hrid] at hacted
        · simp only [hrid] at hacted
          by_cases hcur : s.current_response_id = some rid
          · simp only [hcur, if_pos rfl] at hacted
            exact ⟨hrs, by simp [hrid], by simp [hrid, hcur]⟩
          · simp [hcur] at hacted
      · simp [hrs] at hacted
    · constructor
      · repeat' split
        all_goals simp_all
      · intro hnr
        simp [hnr]

/-- Helper: association-list lookup through the whitelist filter.  For a
list of keys without duplicates, looking a key up in the filtered
association list built from it gives the original value exactly when the
key is in the list. -/
theorem lookup_filterMap_of_nodup {V : Type} (f : String → Option V) :
    ∀ (l : List String), l.Nodup → ∀ k : String,
      (l.filterMap fun x => (f x).map fun v => (x, v)).lookup k
        = if k ∈ l then f k else none := by
  intro l
  induction l with
  | nil => intro _ k; simp
  | cons a t ih =>
      intro hnd k
      rcases List.nodup_cons.mp hnd with ⟨hat, hndt⟩
      rcases hfa : f a with _ | v
      · rw [List.filterMap_cons]
        simp only [hfa, Option.map_none']
        rw [ih hndt k]
        by_cases hk : k = a
        · subst hk
          simp [hat, hfa]
        · simp [hk]
      · rw [List.filterMap_cons]
        simp only [hfa, Option.map_some']
        by_cases hk : k = a
        · subst hk
          simp [List.lookup, hfa]
        · have hba : (k == a) = false := by simp [hk]
          simp only [List.lookup, hba]
          rw [ih hndt k]
          simp [hk]

/-- Helper: the keys of the filtered association list are the listed keys
that the map is defined on, in order. -/
theorem keys_filterMap_lookup {V : Type} (f : String → Option V) :
    ∀ l : List String,
      (l.filterMap fun x => (f x).map fun v => (x, v)).map Prod.fst
        = l.filter fun x => (f x).isSome := by
  intro l
  induction l with
  | nil => simp
  | cons a t ih =>
      rcases hfa : f a with _ | v
      · rw [List.filterMap_cons, List.filter_cons]
        simp [hfa, ih]
      · rw [List.filterMap_cons, List.filter_cons]
        simp [hfa, ih]

/-- C4: "For every session_config dict submitted by a client, the payload
the token minter transmits to the upstream sessions endpoint contains
exactly those keys of session_config that belong to the whitelist, each
with its value unchanged; no key outside the whitelist is ever transmitted."
Looking up any whitelisted key in the payload gives the config's value for
it, any non-whitelisted key is absent, and the payload's key list is
exactly the whitelisted keys present in the config. -/
theorem ephemeral_token_payload_whitelist {V : Type}
    (session_config : List (String × V)) (k : String) :
    (create_ephemeral_token_payload session_config).lookup k
        = (if k ∈ sessionConfigWhitelist then session_config.lookup k else none)
    ∧ (create_ephemeral_token_payload session_config).map Prod.fst
        = sessionConfigWhitelist.filter fun x => (session_config.lookup x).isSome := by
  constructor
  · exact lookup_filterMap_of_nodup (fun x => session_config.lookup x)
      sessionConfigWhitelist (by decide) k
  · exact keys_filterMap_lookup (fun x => session_config.lookup x) sessionConfigWhitelist

/-- C10: "Whenever check_rate_limit returns denied for a client id, the
stored rate record for that client id is left unchanged: its count is not
incremented and its window_start is not reset."  A denied call returns the
clients map untouched. -/
theorem check_rate_limit_denied_preserves_clients
    (clients : RateClients) (client_id : String) (now : ℚ)
    (hdenied : (check_rate_limit clients client_id now).1 = false) :
    (check_rate_limit clients client_id now).2 = clients := by
  unfold check_rate_limit at hdenied ⊢
  rcases h : clients client_id with _ | rate_data
  · simp [h] at hdenied
  · simp only [h] at hdenied ⊢
    by_cases hw : now - rate_data.window_start > RATE_WINDOW
    · simp [hw] at hdenied
    · by_cases hc : rate_data.count ≥ RATE_LIMIT
      · simp [hw, hc]
      · simp [hw, hc] at hdenied

/-- C10 witness: a client at count 100 inside its window is denied and the
clients map is returned unchanged. -/
theorem check_rate_limit_denied_preserves_clients_witness :
    (check_rate_limit
        (fun i => if i = "alice" then some { count := 100, window_start := 0 } else none)
        "alice" 30).1 = false
    ∧ (check_rate_limit
        (fun i => if i = "alice" then some { count := 100, window_start := 0 } else none)
        "alice" 30).2
      = fun i => if i = "alice" then some { count := 100, window_start := 0 } else none :=
  ⟨by norm_num [check_rate_limit, RATE_WINDOW, RATE_LIMIT],
   check_rate_limit_denied_preserves_clients _ _ _
     (by norm_num [check_rate_limit, RATE_WINDOW, RATE_LIMIT])⟩

/-- C1 counterexample: the claim "if the first client event ... is not
init_session, the relay closes the connection with the invalid_init/
init-timeout error" fails at a concrete first event of type
`response.create`: the modal endpoint answers it with an echo message and
leaves the connection open, `relay_server.handle_client` closes it but with
an error coded `invalid_event` (not `invalid_init`), and on the 5 s timeout
`relay_server.handle_client` closes without sending any error event. -/
theorem init_invalid_first_event_counterexample :
    websocket_endpoint_step { type := "response.create" } true
      = { reply := .echoMessage, connectionClosed := false,
          mintAttempted := false, upstreamOpened := false }
    ∧ relay_server_handle_client_init (some { type := "response.create" }) true
      = { sent := [{ code := "invalid_event" }], connectionClosed := true,
          mintAttempted := false, upstreamOpened := false }
    ∧ ("invalid_event" : String) ≠ "invalid_init"
    ∧ relay_server_handle_client_init none true
      = { sent := [], connectionClosed := true,
          mintAttempted := false, upstreamOpened := false } := by
  refine ⟨rfl, by decide, by decide, rfl⟩

/-- C1 (amended): in `relay_server.handle_client`, a missing first event
(5 s timeout) closes the connection with no error event sent, and a first
event whose type is not `init_session` closes it after an error event with
code `invalid_event`; in both cases no ephemeral credential is requested
and no upstream connection is opened.  In the modal app's
`websocket_endpoint` there is no init timeout and a non-`init_session`
first event is answered with an echo message with the connection left
open, no credential requested and no upstream opened. -/
theorem init_invalid_first_event_behavior
    (m : ClientMsg) (mintOk : Bool) (hm : m.type ≠ "init_session") :
    relay_server_handle_client_init none mintOk
      = { sent := [], connectionClosed := true,
          mintAttempted := false, upstreamOpened := false }
    ∧ relay_server_handle_client_init (some m) mintOk
      = { sent := [{ code := "invalid_event" }], connectionClosed := true,
          mintAttempted := false, upstreamOpened := false }
    ∧ websocket_endpoint_step m mintOk
      = { reply := .echoMessage, connectionClosed := false,
          mintAttempted := false, upstreamOpened := false } := by
  refine ⟨rfl, ?_, ?_⟩
  · unfold relay_server_handle_client_init
    simp [hm]
  · unfold websocket_endpoint_step
    simp [hm]

/-- C1 witness: the amended theorem applied to the first event
`{"type": "response.create"}`. -/
theorem init_invalid_first_event_behavior_witness :
    (({ type := "response.create" } : ClientMsg).type ≠ "init_session")
    ∧ (relay_server_handle_client_init none true
        = { sent := [], connectionClosed := true,
            mintAttempted := false, upstreamOpened := false }
      ∧ relay_server_handle_client_init (some { type := "response.create" }) true
        = { sent := [{ code := "invalid_event" }], connectionClosed := true,
            mintAttempted := false, upstreamOpened := false }
      ∧ websocket_endpoint_step { type := "response.create" } true
        = { reply := .echoMessage, connectionClosed := false,
            mintAttempted := false, upstreamOpened := false }) :=
  ⟨by decide, init_invalid_first_event_behavior { type := "response.create" } true (by decide)⟩

/-- Helper: the guarded audio-cost term equals the plain product with the
absent price read as 0 (a `None` or `0` price and a zero count all make
both sides 0). -/
theorem audio_cost_term_eq (price : Option ℚ) (tokens : ℕ) (region_code : String) :
    audio_cost_term price tokens region_code
      = ((tokens : ℚ) * price.getD 0 * regionMultiplier region_code) / 1000000 := by
  unfold audio_cost_term get_price_for_region
  rcases price with _ | p
  · simp
  · simp only [Option.getD_some]
    by_cases h : p ≠ 0 ∧ tokens > 0
    · rw [if_pos h]; ring
    · rw [if_neg h]
      rcases not_and_or.mp h with h0 | h0
      · rw [not_not] at h0
        subst h0; ring
      · have h1 : tokens = 0 := by omega
        subst h1
        push_cast
        ring

/-- C8: "For all non-negative token counts (input, output, cached,
audio-in, audio-out), a price vector and a region multiplier, the computed
usage cost equals the sum over count kinds of count_k × price_k ×
multiplier, divided by 1e6 and rounded to 6 decimal places, and computing
it never mutates the stored usage counters."  `price_k` is the tier's
per-million price (base price × tier multiplier; the default STANDARD tier
has multiplier 1); an absent audio price counts as 0.  Computing the cost
of a counters snapshot returns the counters unchanged. -/
theorem calculate_usage_cost_formula (pricing : TokenPricing) (u : UsageCounters)
    (input_tokens output_tokens cached_tokens : ℕ)
    (audio_input_tokens audio_output_tokens : ℕ)
    (region_code : String) (pricing_tier : PricingTier) :
    calculate_usage_cost pricing input_tokens output_tokens cached_tokens
        audio_input_tokens audio_output_tokens region_code pricing_tier
      = roundTo6
          (((input_tokens : ℚ) * (pricing.input_price * pricing_tier.value)
              * regionMultiplier region_code
            + (output_tokens : ℚ) * (pricing.output_price * pricing_tier.value)
              * regionMultiplier region_code
            + (cached_tokens : ℚ) * (pricing.cached_input_price * pricing_tier.value)
              * regionMultiplier region_code
            + (audio_input_tokens : ℚ) * (pricing.audio_input_price.getD 0 * pricing_tier.value)
              * regionMultiplier region_code
            + (audio_output_tokens : ℚ) * (pricing.audio_output_price.getD 0 * pricing_tier.value)
              * regionMultiplier region_code) / 1000000)
    ∧ (calculate_usage_cost_of_counters u pricing region_code pricing_tier).2 = u := by
  refine ⟨?_, rfl⟩
  unfold calculate_usage_cost get_price_for_region
  rw [audio_cost_term_eq, audio_cost_term_eq]
  ring_nf

/-- C7 counterexample: the claim "after a successful reconnect every queued
event that was not dropped is delivered to the upstream in its original
enqueue order" fails on a concrete trace: events `evt_a` then `evt_b` are
enqueued in that order; sending `evt_a` fails, which re-enqueues it at the
tail of the FIFO queue; after a successful reconnect the two deliveries
succeed, and the upstream observes `evt_b` before `evt_a` — no event was
dropped, yet the delivery order differs from the enqueue order. -/
theorem queue_replay_order_counterexample :
    (process_queue_step
        (process_queue_step
          (reconnect_success
            (process_queue_step
              (enqueue_event
                (enqueue_event
                  { queue := [], healthy := true, delivered := [], dropped := [] }
                  "evt_a")
                "evt_b")
              true))
          false)
        false)
      = { queue := [], healthy := true, delivered := ["evt_b", "evt_a"], dropped := [] }
    ∧ (["evt_b", "evt_a"] : List String) ≠ ["evt_a", "evt_b"] := by
  exact ⟨rfl, by decide⟩

/-- C7 (amended): enqueueing always succeeds and appends at the tail of the
queue; but an event popped by `_process_queue` while the link is unhealthy
is discarded, and when an upstream send fails the event is re-enqueued at
the *tail* of the queue and the link marked unhealthy — so after a
reconnect a replayed event follows events that were enqueued after it, and
delivery order can differ from the original enqueue order. -/
theorem process_queue_step_spec (s : QueueState) (m : String) (rest : List String)
    (sendFails : Bool) (hq : s.queue = m :: rest) :
    (∀ e, enqueue_event s e = { s with queue := s.queue ++ [e] })
    ∧ (s.healthy = false →
        process_queue_step s sendFails
          = { s with queue := rest, dropped := s.dropped ++ [m] })
    ∧ (s.healthy = true →
        process_queue_step s sendFails
          = if sendFails then { s with queue := rest ++ [m], healthy := false }
            else { s with queue := rest, delivered := s.delivered ++ [m] }) := by
  refine ⟨fun e => rfl, ?_, ?_⟩
  · intro hh
    unfold process_queue_step
    rw [hq]
    simp [hh]
  · intro hh
    unfold process_queue_step
    rw [hq]
    simp [hh]

/-- C7 witness: the amended theorem applied to an unhealthy relay whose
queue head is `evt_x`: the popped event is discarded. -/
theorem process_queue_step_spec_witness :
    ((⟨["evt_x", "evt_y"], false, [], []⟩ : QueueState).queue = "evt_x" :: ["evt_y"])
    ∧ ((∀ e, enqueue_event ⟨["evt_x", "evt_y"], false, [], []⟩ e
          = { (⟨["evt_x", "evt_y"], false, [], []⟩ : QueueState) with
              queue := ["evt_x", "evt_y"] ++ [e] })
      ∧ ((⟨["evt_x", "evt_y"], false, [], []⟩ : QueueState).healthy = false →
          process_queue_step ⟨["evt_x", "evt_y"], false, [], []⟩ true
            = { (⟨["evt_x", "evt_y"], false, [], []⟩ : QueueState) with
                queue := ["evt_y"], dropped := [] ++ ["evt_x"] })
      ∧ ((⟨["evt_x", "evt_y"], false, [], []⟩ : QueueState).healthy = true →
          process_queue_step ⟨["evt_x", "evt_y"], false, [], []⟩ true
            = if true then
                { (⟨["evt_x", "evt_y"], false, [], []⟩ : QueueState) with
                  queue := ["evt_y"] ++ ["evt_x"], healthy := false }
              else
                { (⟨["evt_x", "evt_y"], false, [], []⟩ : QueueState) with
                  queue := ["evt_y"], delivered := [] ++ ["evt_x"] })) :=
  ⟨rfl, process_queue_step_spec ⟨["evt_x", "evt_y"], false, [], []⟩ "evt_x" ["evt_y"] true rfl⟩

/-- Helper: setting a client's record makes it visible at that key. -/
theorem RateClients.set_same (m : RateClients) (k : String) (v : RateLimit) :
    (m.set k v) k = some v := by
  simp [RateClients.set]

/-- Helper: inside one rate window (no call arrives more than `RATE_WINDOW`
after the stored window start), starting from a record with count `c`,
call number `j` (0-based) of a run is admitted exactly when `c + j <
RATE_LIMIT`: the count grows by one per admitted call and freezes at the
limit. -/
theorem check_rate_limit_run_within_window (client_id : String) (t0 : ℚ) :
    ∀ (ts : List ℚ) (clients : RateClients) (c : ℕ),
      clients client_id = some { count := c, window_start := t0 } →
      (∀ t ∈ ts, ¬(t - t0 > RATE_WINDOW)) →
      (check_rate_limit_run clients client_id ts).1
        = (List.range ts.length).map fun j => decide (c + j < RATE_LIMIT) := by
  intro ts
  induction ts with
  | nil => intro clients c _ _; rfl
  | cons t rest ih =>
      intro clients c hc hwin
      have hwt : ¬(t - t0 > RATE_WINDOW) := hwin t (by simp)
      have hwin' : ∀ t' ∈ rest, ¬(t' - t0 > RATE_WINDOW) := by
        intro t' ht'; exact hwin t' (by simp [ht'])
      rw [List.length_cons, List.range_succ_eq_map, List.map_cons, List.map_map]
      by_cases hcount : c ≥ RATE_LIMIT
      · have hstep : check_rate_limit clients client_id t = (false, clients) := by
          unfold check_rate_limit
          simp [hc, hwt, hcount]
        unfold check_rate_limit_run
        rw [hstep]
        simp only [List.cons.injEq]
        constructor
        · simp [hcount]
        · rw [ih clients c hc hwin']
          apply List.map_congr_left
          intro j _
          simp only [Function.comp]
          apply decide_eq_decide.mpr
          omega
      · have hstep : check_rate_limit clients client_id t
            = (true, clients.set client_id
                { count := c + 1, window_start := t0 }) := by
          unfold check_rate_limit
          simp [hc, hwt, hcount]
        unfold check_rate_limit_run
        rw [hstep]
        simp only [List.cons.injEq]
        constructor
        · simp [hcount]
          omega
        · rw [ih (clients.set client_id { count := c + 1, window_start := t0 }) (c + 1)
              (RateClients.set_same _ _ _) hwin']
          apply List.map_congr_left
          intro j _
          simp only [Function.comp]
          apply decide_eq_decide.mpr
          omega

/-- Helper: the client→upstream pump forwards every received message:
its output has one forwarded event per input message. -/
theorem relay_local_to_upstream_run_length (u : Nat → String) :
    ∀ (i : ℕ) (msgs : List ClientEvent),
      (relay_local_to_upstream_run u i msgs).length = msgs.length := by
  intro i msgs
  induction msgs generalizing i with
  | nil => rfl
  | cons m rest ih => simp [relay_local_to_upstream_run, ih]

/-- Helper: a message that already carries an `event_id` is forwarded
unchanged, so a run on copies of such a message returns them as they are. -/
theorem relay_run_replicate_of_some (u : Nat → String) (m : ClientEvent)
    (hid : m.event_id.isSome) :
    ∀ (n i : ℕ), relay_local_to_upstream_run u i (List.replicate n m) = List.replicate n m := by
  intro n
  induction n with
  | zero => intro i; rfl
  | succ k ih =>
      intro i
      rw [List.replicate_succ]
      unfold relay_local_to_upstream_run
      rw [ih (i + 1)]
      rcases hm : m.event_id with _ | x
      · rw [hm] at hid; simp at hid
      · simp [stampEvent, hm]

/-- C6 counterexample: the claim "... the first 100 return ok (and are
forwarded) and the 101st returns denied (and is not forwarded)" fails on
the forwarding side at a concrete input: the relay's client→upstream pump
never consults the rate limiter, so a burst of 101 frames from one client
is forwarded in full — the 101st frame is forwarded like the rest, and no
synthetic rate_limited error exists on that path. -/
theorem burst_101_all_forwarded_counterexample :
    relay_local_to_upstream_run (fun _ => "0123456789abcdef0123456789abcdef") 0
        (List.replicate 101 { event_id := some "e1", payload := "audio" })
      = List.replicate 101 { event_id := some "e1", payload := "audio" }
    ∧ (relay_local_to_upstream_run (fun _ => "0123456789abcdef0123456789abcdef") 0
        (List.replicate 101 { event_id := some "e1", payload := "audio" })).length = 101 := by
  constructor
  · exact relay_run_replicate_of_some _ _ (by decide) 101 0
  · rw [relay_local_to_upstream_run_length]
    decide

/-- C6 (amended): `check_rate_limit` itself admits at most `RATE_LIMIT`
requests per window: in a burst of 101 requests from one principal, all
inside one 60 s window, the first 100 calls return ok and the 101st
returns denied.  However, the relay's message path never invokes the rate
limiter: every received frame is forwarded upstream regardless of count. -/
theorem check_rate_limit_burst (clients : RateClients) (client_id : String)
    (t0 : ℚ) (ts : List ℚ)
    (h0 : clients client_id = none)
    (hlen : ts.length = 100)
    (hwin : ∀ t ∈ ts, ¬(t - t0 > RATE_WINDOW)) :
    (check_rate_limit_run clients client_id (t0 :: ts)).1
      = List.replicate 100 true ++ [false]
    ∧ ∀ (u : Nat → String) (i : ℕ) (msgs : List ClientEvent),
        (relay_local_to_upstream_run u i msgs).length = msgs.length := by
  refine ⟨?_, fun u i msgs => relay_local_to_upstream_run_length u i msgs⟩
  have hstep : check_rate_limit clients client_id t0
      = (true, clients.set client_id { count := 1, window_start := t0 }) := by
    unfold check_rate_limit
    simp [h0]
  have hrun := check_rate_limit_run_within_window client_id t0 ts
      (clients.set client_id { count := 1, window_start := t0 }) 1
      (RateClients.set_same _ _ _) hwin
  unfold check_rate_limit_run
  rw [hstep]
  rcases hr : check_rate_limit_run (clients.set client_id { count := 1, window_start := t0 })
      client_id ts with ⟨oks, cf⟩
  rw [hr] at hrun
  simp only at hrun
  dsimp only
  rw [hr]
  dsimp only
  rw [hrun, hlen]
  decide

/-- C6 witness: the amended theorem applied to a fresh client and 100 more
calls all at time 0: the burst result is 100 oks then one denial. -/
theorem check_rate_limit_burst_witness :
    ((fun _ : String => (none : Option RateLimit)) "alice" = none
      ∧ (List.replicate 100 (0 : ℚ)).length = 100
      ∧ ∀ t ∈ List.replicate 100 (0 : ℚ), ¬(t - 0 > RATE_WINDOW))
    ∧ ((check_rate_limit_run (fun _ => none) "alice" ((0 : ℚ) :: List.replicate 100 (0 : ℚ))).1
        = List.replicate 100 true ++ [false]
      ∧ ∀ (u : Nat → String) (i : ℕ) (msgs : List ClientEvent),
          (relay_local_to_upstream_run u i msgs).length = msgs.length) :=
  ⟨⟨rfl, by decide, by
      intro t ht
      rw [List.eq_of_mem_replicate ht]
      norm_num [RATE_WINDOW]⟩,
    check_rate_limit_burst (fun _ => none) "alice" 0 (List.replicate 100 (0 : ℚ))
      rfl (by decide)
      (by
        intro t ht
        rw [List.eq_of_mem_replicate ht]
        norm_num [RATE_WINDOW])⟩

/-- Helper: appending to a fixed string on the left is injective. -/
theorem append_left_cancel_str {s t₁ t₂ : String} (h : s ++ t₁ = s ++ t₂) : t₁ = t₂ := by
  have hd := congrArg String.data h
  simp only [String.data_append] at hd
  exact String.ext (List.append_cancel_left hd)

/-- Helper: every event forwarded by the client→upstream pump carries an
`event_id` (either the client's or the freshly stamped one). -/
theorem relay_run_event_id_isSome (u : Nat → String) :
    ∀ (msgs : List ClientEvent) (i : ℕ),
      ∀ e ∈ relay_local_to_upstream_run u i msgs, e.event_id.isSome := by
  intro msgs
  induction msgs with
  | nil => intro i e he; simp [relay_local_to_upstream_run] at he
  | cons m rest ih =>
      intro i e he
      unfold relay_local_to_upstream_run at he
      rcases List.mem_cons.mp he with h | h
      · subst h
        unfold stampEvent
        rcases hm : m.event_id with _ | x <;> simp [hm]
      · exact ih (i + 1) e h

/-- Helper: the j-th forwarded event of a pump run is the j-th received
message stamped with the j-th uuid draw. -/
theorem relay_run_getElem (u : Nat → String) :
    ∀ (msgs : List ClientEvent) (i j : ℕ) (m : ClientEvent), msgs[j]? = some m →
      (relay_local_to_upstream_run u i msgs)[j]? = some (stampEvent m (u (i + j))) := by
  intro msgs
  induction msgs with
  | nil => intro i j m h; simp at h
  | cons m0 rest ih =>
      intro i j m h
      cases j with
      | zero =>
          simp only [List.getElem?_cons_zero, Option.some.injEq] at h
          subst h
          simp [relay_local_to_upstream_run]
      | succ jj =>
          simp only [List.getElem?_cons_succ] at h
          unfold relay_local_to_upstream_run
          simp only [List.getElem?_cons_succ]
          have hidx : i + (jj + 1) = i + 1 + jj := by omega
          rw [hidx]
          exact ih (i + 1) jj m h

/-- C5 counterexample: the claim "all event_ids stamped by the relay are
unique within that connection" fails when two `uuid.uuid4().hex` draws
agree on their first 6 characters (nothing in the code prevents this — the
stamp is random with no per-connection dedup): with both draws equal to the
32-hex-char string below, two client events lacking an `event_id` are both
stamped `evt_aaaaaa`. -/
theorem stamped_event_id_collision_counterexample :
    relay_local_to_upstream_run (fun _ => "aaaaaaaaaaaaaaaaaaaaaaaaaaaaaaaa") 0
        [{ event_id := none, payload := "m1" }, { event_id := none, payload := "m2" }]
      = [{ event_id := some "evt_aaaaaa", payload := "m1" },
         { event_id := some "evt_aaaaaa", payload := "m2" }]
    ∧ ¬ ((relay_local_to_upstream_run (fun _ => "aaaaaaaaaaaaaaaaaaaaaaaaaaaaaaaa") 0
        [{ event_id := none, payload := "m1" }, { event_id := none, payload := "m2" }]).map
          ClientEvent.event_id).Nodup := by
  exact ⟨rfl, by decide⟩

/-- C5 (amended): every event the pump forwards upstream carries an
`event_id`; when the client omitted it, the forwarded event is the message
stamped with `evt_` followed by the first 6 characters of the fresh
`uuid4` hex draw; two stamped ids within a connection are distinct whenever
their draws differ in those first 6 characters — but uniqueness is not
otherwise enforced. -/
theorem stamped_event_id_spec (u : Nat → String) (i0 : ℕ) (msgs : List ClientEvent) :
    (∀ e ∈ relay_local_to_upstream_run u i0 msgs, e.event_id.isSome)
    ∧ (∀ (j : ℕ) (m : ClientEvent), msgs[j]? = some m → m.event_id = none →
        (relay_local_to_upstream_run u i0 msgs)[j]?
          = some { m with event_id := some ("evt_" ++ (u (i0 + j)).take 6) })
    ∧ (∀ (j k : ℕ) (mj mk : ClientEvent),
        msgs[j]? = some mj → msgs[k]? = some mk →
        mj.event_id = none → mk.event_id = none →
        (u (i0 + j)).take 6 ≠ (u (i0 + k)).take 6 →
        ((relay_local_to_upstream_run u i0 msgs)[j]?).map ClientEvent.event_id
          ≠ ((relay_local_to_upstream_run u i0 msgs)[k]?).map ClientEvent.event_id) := by
  refine ⟨fun e he => relay_run_event_id_isSome u msgs i0 e he, ?_, ?_⟩
  · intro j m hj hmid
    rw [relay_run_getElem u msgs i0 j m hj]
    unfold stampEvent
    rw [hmid]
  · intro j k mj mk hj hk hmj hmk htake heq
    rw [relay_run_getElem u msgs i0 j mj hj, relay_run_getElem u msgs i0 k mk hk] at heq
    unfold stampEvent at heq
    rw [hmj, hmk] at heq
    simp only [Option.map_some', Option.some.injEq, ClientEvent.mk.injEq] at heq
    exact htake (append_left_cancel_str heq)

/-- C5 witness: the amended theorem applied to two id-less messages and
draws that differ in their first 6 characters: the two forwarded events
carry distinct event_ids. -/
theorem stamped_event_id_spec_witness :
    (([{ event_id := none, payload := "m1" }, { event_id := none, payload := "m2" }]
        : List ClientEvent)[0]? = some { event_id := none, payload := "m1" }
      ∧ ([{ event_id := none, payload := "m1" }, { event_id := none, payload := "m2" }]
        : List ClientEvent)[1]? = some { event_id := none, payload := "m2" }
      ∧ (((fun n => if n = 0 then "aaaaaaaaaaaaaaaaaaaaaaaaaaaaaaaa"
            else "bbbbbbbbbbbbbbbbbbbbbbbbbbbbbbbb") : Nat → String) (0 + 0)).take 6
          ≠ (((fun n => if n = 0 then "aaaaaaaaaaaaaaaaaaaaaaaaaaaaaaaa"
            else "bbbbbbbbbbbbbbbbbbbbbbbbbbbbbbbb") : Nat → String) (0 + 1)).take 6)
    ∧ ((relay_local_to_upstream_run
          (fun n => if n = 0 then "aaaaaaaaaaaaaaaaaaaaaaaaaaaaaaaa"
            else "bbbbbbbbbbbbbbbbbbbbbbbbbbbbbbbb") 0
          [{ event_id := none, payload := "m1" }, { event_id := none, payload := "m2" }])[0]?).map
            ClientEvent.event_id
        ≠ ((relay_local_to_upstream_run
          (fun n => if n = 0 then "aaaaaaaaaaaaaaaaaaaaaaaaaaaaaaaa"
            else "bbbbbbbbbbbbbbbbbbbbbbbbbbbbbbbb") 0
          [{ event_id := none, payload := "m1" }, { event_id := none, payload := "m2" }])[1]?).map
            ClientEvent.event_id :=
  ⟨⟨rfl, rfl, by decide⟩,
    (stamped_event_id_spec
        (fun n => if n = 0 then "aaaaaaaaaaaaaaaaaaaaaaaaaaaaaaaa"
          else "bbbbbbbbbbbbbbbbbbbbbbbbbbbbbbbb") 0
        [{ event_id := none, payload := "m1" }, { event_id := none, payload := "m2" }]).2.2
      0 1 { event_id := none, payload := "m1" } { event_id := none, payload := "m2" }
      rfl rfl rfl rfl (by decide)⟩

/-- C9 witness: the guard theorem applied to a concrete text delta whose
`response_id` matches the current response id while the state is Idle: the
step is a complete no-op. -/
theorem delta_acted_iff_responding_and_matching_witness :
    handle_server_events_step ⟨.idle, some "r2"⟩
        { type := "response.text.delta", response_id := some "r2", delta := some "hi" }
      = noChange ⟨.idle, some "r2"⟩ :=
  (delta_acted_iff_responding_and_matching ⟨.idle, some "r2"⟩
      { type := "response.text.delta", response_id := some "r2", delta := some "hi" }
      (Or.inl rfl)).2.2 (by decide)

end RealtimeCli
